import Mathlib

/-!
Shallow embedding of the product-catalog backend (Express/Mongoose app):
  - `src/unnamed/part_000` : `protect` auth middleware (token extraction, JWT
    verification, user lookup);
  - `src/routes/imageRoutes.js` : the router mounted by `src/index.js`
    (signup/login, multer + Cloudinary image filter, product CRUD handlers);
  - `src/models/productModel.js` : the Mongoose product schema the mounted
    router imports — title, details, image, price, rating only; it has NO
    categories path, so strict-mode Mongoose (the default) silently drops
    the `categories` key the upload handler passes to the constructor. The
    categories+enum schema in `src/unnamed/part_001` belongs to the
    unmounted local-disk route variant (`src/unnamed/part_002`) and is not
    modelled here.

JavaScript conventions modelled explicitly:
  - an absent (`undefined`) value is `Option.none`;
  - string truthiness (`!s`) is emptiness;
  - `a || b` takes the first truthy operand;
  - JS numbers that may be `NaN` are `Option Rat` with `none` = NaN
    (`parseFloat` of a non-numeric string or of `undefined` is NaN);
  - Mongoose strips `undefined` values from update objects, and its Number
    cast rejects NaN (`assert.ok(!isNaN(val))` in `cast/number.js`).
-/

/-- JS string truthiness: `undefined` and the empty string are falsy. -/
def truthyOpt : Option String → Bool
  | none => false
  | some s => s ≠ ""

/-- JS `a || b` on possibly-undefined strings: first truthy operand, else `b`. -/
def jsOr (a b : Option String) : Option String :=
  if truthyOpt a then a else b

/-- Split a character list at every occurrence of `sep` (the semantics of JS
`String.prototype.split` with a one-character separator). -/
def splitOnCharAux (sep : Char) : List Char → List Char → List (List Char)
  | [], acc => [acc.reverse]
  | c :: rest, acc =>
    if c == sep then acc.reverse :: splitOnCharAux sep rest []
    else splitOnCharAux sep rest (c :: acc)

/-- JS `s.split(sep)` for a one-character separator. -/
def jsSplit (s : String) (sep : Char) : List String :=
  (splitOnCharAux sep s.data []).map (fun l => String.mk l)

/-- ASCII whitespace, the cases JS `trim` strips in this app's inputs. -/
def isWs (c : Char) : Bool :=
  c == ' ' || c == '\t' || c == '\n' || c == '\r'

/-- JS `s.trim()`. -/
def jsTrim (s : String) : String :=
  String.mk (((s.data.dropWhile isWs).reverse.dropWhile isWs).reverse)

/-- JS `s.toLowerCase()` (ASCII case folding suffices for the extensions and
MIME types involved). -/
def jsLower (s : String) : String :=
  String.mk (s.data.map Char.toLower)

/-- Substring containment (the effect of `/jpeg|jpg|png|webp|gif/.test(s)` is
`s` containing one of the alternatives as a substring). -/
def strContains (s pat : String) : Bool :=
  (List.range (s.length + 1)).any (fun i => pat.data.isPrefixOf (s.data.drop i))

/-- Node `path.extname`: the final `.`-suffix of the name including the dot;
empty for names without a dot and for a leading-dot-only name like `.exe`. -/
def extname (name : String) : String :=
  match jsSplit name '.' with
  | [] => ""
  | [_] => ""
  | "" :: [_] => ""
  | parts => "." ++ parts.getLastD ""

/-- Digit-string to `Nat` (`none` when empty or non-digits). -/
def digitsToNat? (s : String) : Option Nat :=
  if s.length > 0 && s.data.all Char.isDigit then
    some (s.data.foldl (fun acc c => acc * 10 + (c.toNat - 48)) 0)
  else none

/-- JS `parseFloat` on the nonnegative decimal literals this app feeds it
(`"19.99"`, `"4"`, ...): `none` is NaN (non-numeric input). -/
def parseFloatQ : String → Option Rat := fun s =>
  match jsSplit s '.' with
  | [a] => (digitsToNat? a).map (fun n => Rat.divInt n 1)
  | [a, b] =>
    match digitsToNat? a, digitsToNat? b with
    | some ia, some fb => some (Rat.divInt (ia * 10 ^ b.length + fb) (10 ^ b.length))
    | _, _ => none
  | _ => none

/-- Boolean `a ≤ b` on rationals by cross-multiplication (denominators are
positive), used to keep the Mongoose numeric validators kernel-computable. -/
def ratLeB (a b : Rat) : Bool :=
  decide (a.num * (b.den : Int) ≤ b.num * (a.den : Int))

/-- `parseFloat` applied to a possibly-undefined field: `parseFloat(undefined)`
is NaN. -/
def jsParseFloatOpt : Option String → Option Rat
  | none => none
  | some s => parseFloatQ s

/-! ## Auth Gate: `protect` (src/unnamed/part_000) -/

/-- A user record (`usermodel`). -/
structure UserRec where
  uid : Nat
  name : String
  email : String
  passwordHash : String
  deriving Repr, DecidableEq

/-- The request fields `protect` reads: token carriers and content negotiation
(`wantsHtml` is `req.accepts("html") && !req.xhr`). -/
structure AuthRequest where
  cookieToken : Option String
  authHeader : Option String
  bodyToken : Option String
  queryToken : Option String
  wantsHtml : Bool
  deriving Repr, DecidableEq

/-- External collaborators of `protect`: `jwt.verify` (signature + expiry check,
`none` on failure) and `User.findById` (password field excluded). -/
structure AuthEnv where
  verify : String → Option Nat
  findUser : Nat → Option UserRec

/-- Token taken from the `Authorization` header when it starts with
`Bearer `: `authHeader.split(" ")[1]`. -/
def tokenFromHeader (h : Option String) : Option String :=
  match h with
  | none => none
  | some s => if "Bearer ".data.isPrefixOf s.data then (jsSplit s ' ').get? 1 else none

/-- `const token = tokenFromCookie || tokenFromHeader || req.body?.token || req.query?.token`. -/
def extractToken (r : AuthRequest) : Option String :=
  jsOr r.cookieToken (jsOr (tokenFromHeader r.authHeader) (jsOr r.bodyToken r.queryToken))

/-- Outcome of the `protect` middleware. -/
inductive ProtectResult where
  | redirectLogin
  | unauthorized (msg : String)
  | next (user : UserRec)
  deriving Repr, DecidableEq

/-- The `protect` middleware: extract token, verify, load user; fail-closed,
redirecting HTML clients to `/login` and answering 401 JSON otherwise. -/
def protect (env : AuthEnv) (r : AuthRequest) : ProtectResult :=
  let tok := extractToken r
  if !truthyOpt tok then
    if r.wantsHtml then .redirectLogin else .unauthorized "Not authorized, token missing"
  else
    match env.verify (tok.getD "") with
    | none =>
      if r.wantsHtml then .redirectLogin else .unauthorized "Not authorized, token invalid"
    | some uid =>
      match env.findUser uid with
      | none =>
        if r.wantsHtml then .redirectLogin else .unauthorized "Not authorized, user not found"
      | some u => .next u

/-! ## Login route (imageRoutes.js, POST /login) -/

/-- Collaborators of the login handler: the credential store
(`User.findOne({email})`) and `bcrypt.compare`. -/
structure LoginEnv where
  users : List UserRec
  bcryptCompare : String → String → Bool

/-- Caller-visible outcome of POST /login (status code and JSON message, or
the success render with its cookie-setting side effect). -/
inductive LoginResult where
  | badRequest (msg : String)
  | notFoundUser (msg : String)
  | success (userId : Nat)
  deriving Repr, DecidableEq

/-- POST /login handler: empty-field check, `User.findOne({email})`,
`bcrypt.compare`, then JWT issue + cookie + success render. -/
def loginHandler (env : LoginEnv) (email password : Option String) : LoginResult :=
  if !truthyOpt email || !truthyOpt password then
    .badRequest "All fields are required"
  else
    match env.users.find? (fun u => u.email == email.getD "") with
    | none => .notFoundUser "User does not exist"
    | some u =>
      if env.bcryptCompare (password.getD "") u.passwordHash then
        .success u.uid
      else
        .badRequest "Incorrect password"

/-! ## Image filter and upload pipeline (imageRoutes.js) -/

/-- A file as multer's `fileFilter` sees it. -/
structure RawUpload where
  originalname : String
  mimetype : String
  deriving Repr, DecidableEq

/-- The allow-list alternatives of the regex `/jpeg|jpg|png|webp|gif/`. -/
def allowedTypes : List String := ["jpeg", "jpg", "png", "webp", "gif"]

/-- `allowedTypes.test s`: some alternative occurs in `s`. -/
def testAllowed (s : String) : Bool :=
  allowedTypes.any (fun t => strContains s t)

/-- `imageFilter`: accept iff both the MIME type and the lower-cased filename
extension match the allow-list regex. -/
def imageFilterAccepts (f : RawUpload) : Bool :=
  testAllowed f.mimetype && testAllowed (jsLower (extname f.originalname))

/-- The error message `imageFilter` passes to multer's callback on rejection. -/
def imageFilterError : String := "Only image files are allowed (jpeg, jpg, png, webp, gif)!"

/-- The stored-file view the handler receives (`req.file`); `path` is the
public URL Cloudinary returns. -/
structure StoredFile where
  path : String
  deriving Repr, DecidableEq

/-- URL the Cloudinary storage delegate returns for an accepted file
(external collaborator; only its presence as a URL string matters here). -/
def cloudinaryPath (f : RawUpload) : String :=
  "https://res.cloudinary.com/uploads/images/" ++ f.originalname

/-! ## Product model (productModel.js) and store -/

/-- A persisted product record of the mounted schema
(`src/models/productModel.js`): title, details, image, price, rating — the
schema has no categories path. -/
structure Product where
  pid : Nat
  title : String
  details : String
  image : String
  price : Rat
  ratingRate : Rat
  ratingCount : Nat
  deriving Repr, DecidableEq

/-- The document store of products. -/
abbrev Store := List Product

/-- `Product.findById`. -/
def findById (store : Store) (id : Nat) : Option Product :=
  store.find? (fun p => p.pid == id)

/-- Mongoose validation run by `save()` against the mounted schema: required
strings nonempty (title is trimmed by its setter first), `price ≥ 0`,
`0 ≤ rating.rate ≤ 5`. -/
def saveValid (p : Product) : Bool :=
  p.title ≠ "" && p.details ≠ "" && p.image ≠ "" &&
  ratLeB 0 p.price && ratLeB 0 p.ratingRate && ratLeB p.ratingRate (Rat.divInt 5 1)

/-! ## POST /upload handler (imageRoutes.js lines 185-231) -/

/-- The `categories` form field: absent, a comma-separated string, or an
already-multi-valued (array) field. -/
inductive CatField where
  | missing
  | str (s : String)
  | arr (l : List String)
  deriving Repr, DecidableEq

/-- `Array.isArray(categories) ? categories : categories.split(",").map(cat => cat.trim())`;
`none` models the TypeError thrown when `categories` is `undefined`. -/
def categoryArray : CatField → Option (List String)
  | .missing => none
  | .str s => some ((jsSplit s ',').map jsTrim)
  | .arr l => some l

/-- The non-file form fields of POST /upload. -/
structure UploadBody where
  title : Option String
  details : Option String
  rating : Option String
  price : Option String
  categories : CatField
  deriving Repr, DecidableEq

/-- Caller-visible outcome of the upload handler. -/
inductive UploadResult where
  | badRequest (msg : String)
  | serverError (msg : String)
  | ok (p : Product)
  deriving Repr, DecidableEq

/-- Message of the 400 sent when a required form field is falsy. -/
def requiredFieldsMsg : String := "All fields are required (title, details, rating, price, image)"

/-- Message of the TypeError thrown by `categories.split` on `undefined`. -/
def categoriesSplitError : String := "Cannot read properties of undefined (reading split)"

/-- The POST /upload handler body (after multer and `protect`): file check,
`categoryArray` computation (which throws when `categories` is absent),
required-field validation, then `new Product(...)` + `save()`; a thrown
error is caught and answered with status 500. The handler passes
`categories: categoryArray` to the constructor, but the mounted schema has
no categories path, so strict-mode Mongoose drops the key: the persisted
document and the response carry no categories. -/
def uploadHandler (store : Store) (file : Option StoredFile) (body : UploadBody)
    (newId : Nat) : UploadResult × Store :=
  match file with
  | none => (.badRequest "No image uploaded", store)
  | some f =>
    match categoryArray body.categories with
    | none => (.serverError categoriesSplitError, store)
    | some _ =>
      if !truthyOpt body.title || !truthyOpt body.details ||
         !truthyOpt body.rating || !truthyOpt body.price then
        (.badRequest requiredFieldsMsg, store)
      else
        match jsParseFloatOpt body.price, jsParseFloatOpt body.rating with
        | some pr, some rt =>
          let prod : Product :=
            { pid := newId, title := jsTrim (body.title.getD ""),
              details := body.details.getD "", image := f.path,
              price := pr, ratingRate := rt, ratingCount := 1 }
          if saveValid prod then (.ok prod, store ++ [prod])
          else (.serverError "Product validation failed", store)
        | _, _ => (.serverError "Cast to Number failed", store)

/-! ## Route pipeline for POST /upload: multer (image store) → protect → handler -/

/-- Route-level outcome of POST /upload. -/
inductive UploadRouteResult where
  | filterError (msg : String)
  | authReject (r : ProtectResult)
  | handled (r : UploadResult)
  deriving Repr, DecidableEq

/-- The POST /upload route: multer's `imageFilter` (and Cloudinary storage)
runs first, then `protect`, then the handler. -/
def postUpload (env : AuthEnv) (store : Store) (file : Option RawUpload)
    (body : UploadBody) (req : AuthRequest) (newId : Nat) : UploadRouteResult × Store :=
  match file with
  | some f =>
    if imageFilterAccepts f then
      match protect env req with
      | .next _ =>
        let hr := uploadHandler store (some { path := cloudinaryPath f }) body newId
        (.handled hr.1, hr.2)
      | r => (.authReject r, store)
    else
      (.filterError imageFilterError, store)
  | none =>
    match protect env req with
    | .next _ =>
      let hr := uploadHandler store none body newId
      (.handled hr.1, hr.2)
    | r => (.authReject r, store)

/-! ## POST /edit/:id handler (imageRoutes.js lines 287-309) -/

/-- The non-file form fields of POST /edit/:id. -/
structure EditBody where
  title : Option String
  details : Option String
  price : Option String
  rating : Option String
  deriving Repr, DecidableEq

/-- Outcome of the edit and delete handlers. -/
inductive EditResult where
  | redirect (loc : String)
  | serverError (msg : String)
  deriving Repr, DecidableEq

/-- Effect of `findByIdAndUpdate`'s `$set` on a matched document: `undefined`
keys (`title`, `details`) were stripped by Mongoose, `price` and `rating.rate`
are set to the cast numbers, `image` is set only when present in the update. -/
def applyUpdate (old : Product) (title details : Option String) (price rate : Rat)
    (image : Option String) : Product :=
  { old with
    title := ((title.map jsTrim).getD old.title),
    details := details.getD old.details,
    price := price,
    ratingRate := rate,
    image := image.getD old.image }

/-- The POST /edit/:id handler: builds
`{title, details, price: parseFloat(price), "rating.rate": parseFloat(rating), image?}`
and calls `findByIdAndUpdate`. Mongoose's Number cast rejects NaN, so an
absent or non-numeric `price`/`rating` throws (caught: status 500); otherwise
the matched document (if any) is updated and the handler redirects. -/
def postEdit (store : Store) (id : Nat) (body : EditBody)
    (file : Option StoredFile) : EditResult × Store :=
  match jsParseFloatOpt body.price, jsParseFloatOpt body.rating with
  | some pr, some rt =>
    (.redirect ("/products/" ++ toString id),
     store.map (fun q =>
       if q.pid == id then applyUpdate q body.title body.details pr rt (file.map StoredFile.path)
       else q))
  | _, _ => (.serverError "Cast to Number failed", store)

/-! ## Route pipeline for POST /edit/:id: multer (image store) → protect → handler -/

/-- Route-level outcome of POST /edit/:id. -/
inductive EditRouteResult where
  | filterError (msg : String)
  | authReject (r : ProtectResult)
  | handled (r : EditResult)
  deriving Repr, DecidableEq

/-- The POST /edit/:id route as registered:
`router.post("/edit/:id", upload.single("image"), protect, handler)` —
multer (filter + Cloudinary storage) first, then `protect`, then the edit
handler. -/
def postEditRoute (env : AuthEnv) (store : Store) (id : Nat) (file : Option RawUpload)
    (body : EditBody) (req : AuthRequest) : EditRouteResult × Store :=
  match file with
  | some f =>
    if imageFilterAccepts f then
      match protect env req with
      | .next _ =>
        let hr := postEdit store id body (some { path := cloudinaryPath f })
        (.handled hr.1, hr.2)
      | r => (.authReject r, store)
    else
      (.filterError imageFilterError, store)
  | none =>
    match protect env req with
    | .next _ =>
      let hr := postEdit store id body none
      (.handled hr.1, hr.2)
    | r => (.authReject r, store)

/-! ## POST /delete/:id (imageRoutes.js lines 315-325): no auth middleware -/

/-- The POST /delete/:id route: `Product.findByIdAndDelete(id)` then a
redirect. The route chain has no `protect`, so the request's auth state is
never consulted. -/
def postDelete (store : Store) (_req : AuthRequest) (id : Nat) : EditResult × Store :=
  (.redirect "/products", store.filter (fun q => !(q.pid == id)))

/-! ## Middleware chains of the mutating routes, as registered -/

/-- A middleware step of a route chain. -/
inductive MStep where
  | imageStoreUpload
  | authCheck
  | routeHandler
  deriving Repr, DecidableEq, BEq

/-- `router.post("/upload", upload.single("image"), protect, handler)`. -/
def uploadChain : List MStep := [.imageStoreUpload, .authCheck, .routeHandler]

/-- `router.post("/edit/:id", upload.single("image"), protect, handler)`. -/
def editChain : List MStep := [.imageStoreUpload, .authCheck, .routeHandler]

/-- `router.post("/delete/:id", handler)`. -/
def deleteChain : List MStep := [.routeHandler]

/-! ## Concrete instances used by witnesses and counterexamples -/

/-- An auth environment in which verification and user lookup always fail. -/
def envNone : AuthEnv := { verify := fun _ => none, findUser := fun _ => none }

/-- A tokenless JSON-client request. -/
def noTokenReq : AuthRequest :=
  { cookieToken := none, authHeader := none, bodyToken := none,
    queryToken := none, wantsHtml := false }

/-- A JSON-client request carrying a cookie token. -/
def cookieTokReq : AuthRequest :=
  { cookieToken := some "tok", authHeader := none, bodyToken := none,
    queryToken := none, wantsHtml := false }

/-- A request carrying every token source at once. -/
def allSourcesReq : AuthRequest :=
  { cookieToken := some "ck", authHeader := some "Bearer hd",
    bodyToken := some "bd", queryToken := some "qt", wantsHtml := false }

/-- The single registered user of the login scenarios. -/
def aliceUser : UserRec :=
  { uid := 1, name := "Alice", email := "alice@x.com", passwordHash := "hpw" }

/-- A login environment whose hash comparison is plain equality. -/
def loginEnvC : LoginEnv :=
  { users := [aliceUser], bcryptCompare := fun p h => p == h }

/-- The §8 scenario body: Mouse / Wireless / 19.99 / 4 / Accessories,Electronics. -/
def mouseBody : UploadBody :=
  { title := some "Mouse", details := some "Wireless", rating := some "4",
    price := some "19.99", categories := .str "Accessories,Electronics" }

/-- The valid PNG of the §8 scenario. -/
def pngFile : RawUpload := { originalname := "m.png", mimetype := "image/png" }

/-- The record the §8 scenario actually persists: no categories — the
mounted schema drops them. -/
def mouseProduct : Product :=
  { pid := 1, title := "Mouse", details := "Wireless",
    image := cloudinaryPath pngFile, price := Rat.divInt 1999 100,
    ratingRate := Rat.divInt 4 1, ratingCount := 1 }

/-- The scenario body with an entirely different categories input. -/
def gamingCatBody : UploadBody :=
  { mouseBody with categories := .str "Gaming" }

/-- An upload body whose `categories` field is absent. -/
def noCatBody : UploadBody := { mouseBody with categories := .missing }

/-- An upload body missing `title` and `categories` (but with all else). -/
def missingTitleCatBody : UploadBody :=
  { mouseBody with title := none, categories := .missing }

/-- An upload body missing only `title`. -/
def missingTitleBody : UploadBody := { mouseBody with title := none }

/-- A pre-existing product record. -/
def prodA : Product :=
  { pid := 1, title := "T", details := "D", image := "I",
    price := Rat.divInt 10 1, ratingRate := Rat.divInt 3 1, ratingCount := 7 }

/-- A pre-existing product record with id 99. -/
def prodC99 : Product := { prodA with pid := 99 }

/-- An edit body carrying only a new price. -/
def priceOnlyBody : EditBody :=
  { title := none, details := none, price := some "9.99", rating := none }

/-- An edit body with every field present and numeric. -/
def fullEditBody : EditBody :=
  { title := some "T2", details := some "D2", price := some "5", rating := some "2" }

/-! ## Helper lemmas -/

/-- `find?` over an append whose first part has no hit. -/
theorem find?_append_of_none {α : Type} (l1 l2 : List α) (p : α → Bool)
    (h : l1.find? p = none) : (l1 ++ l2).find? p = l2.find? p := by
  induction l1 with
  | nil => rfl
  | cons a t ih =>
    by_cases hpa : p a = true
    · rw [List.find?_cons_of_pos _ hpa] at h; cases h
    · rw [List.find?_cons_of_neg _ hpa] at h
      rw [List.cons_append, List.find?_cons_of_neg _ hpa]
      exact ih h

/-- A per-id update map is the identity when no element has the id. -/
theorem map_update_of_no_match (store : Store) (id : Nat) (f : Product → Product)
    (h : ∀ q ∈ store, (q.pid == id) = false) :
    store.map (fun q => if q.pid == id then f q else q) = store := by
  induction store with
  | nil => rfl
  | cons a t ih =>
    have ha := h a (List.mem_cons_self a t)
    simp only [List.map_cons, ha, Bool.false_eq_true, if_false]
    rw [ih (fun q hq => h q (List.mem_cons_of_mem a hq))]

/-- Looking up a freshly appended product by its id finds it, provided the
id was fresh for the old store. -/
theorem findById_append_fresh (store : Store) (p : Product)
    (h : findById store p.pid = none) :
    findById (store ++ [p]) p.pid = some p := by
  unfold findById at h ⊢
  rw [find?_append_of_none _ _ _ h]
  simp [List.find?]

/-! ## C2 -/

/-- C2: for every request in which the token is absent, the token fails
verification (signature/expiry), or no user with the token's id exists,
`protect` rejects the request — redirect to /login for HTML clients, 401
JSON otherwise — and never invokes the downstream handler. -/
theorem protect_fail_closed (env : AuthEnv) (r : AuthRequest)
    (h : truthyOpt (extractToken r) = false ∨
         env.verify ((extractToken r).getD "") = none ∨
         (∃ uid, env.verify ((extractToken r).getD "") = some uid ∧
            env.findUser uid = none)) :
    (∀ u, protect env r ≠ .next u) ∧
    (r.wantsHtml = true → protect env r = .redirectLogin) ∧
    (r.wantsHtml = false → ∃ m, protect env r = .unauthorized m) := by
  have main :
      protect env r =
        (if r.wantsHtml then ProtectResult.redirectLogin
         else .unauthorized "Not authorized, token missing") ∨
      protect env r =
        (if r.wantsHtml then ProtectResult.redirectLogin
         else .unauthorized "Not authorized, token invalid") ∨
      protect env r =
        (if r.wantsHtml then ProtectResult.redirectLogin
         else .unauthorized "Not authorized, user not found") := by
    unfold protect
    by_cases ht : truthyOpt (extractToken r)
    · rcases h with h | h | ⟨uid, h1, h2⟩
      · rw [ht] at h; cases h
      · simp [ht, h]
      · simp [ht, h1, h2]
    · simp [ht]
  rcases main with hm | hm | hm <;>
    exact ⟨fun u => by rw [hm]; cases hw : r.wantsHtml <;> simp [hw],
           fun hw => by rw [hm, if_pos hw],
           fun hw => by rw [hm, if_neg (by simp [hw])]; exact ⟨_, rfl⟩⟩

/-- C2 witness: the fail-closed theorem at a concrete JSON request whose
cookie token fails verification. -/
theorem protect_fail_closed_witness :
    (∀ u, protect envNone cookieTokReq ≠ .next u) ∧
    (cookieTokReq.wantsHtml = true → protect envNone cookieTokReq = .redirectLogin) ∧
    (cookieTokReq.wantsHtml = false → ∃ m, protect envNone cookieTokReq = .unauthorized m) :=
  protect_fail_closed envNone cookieTokReq (Or.inr (Or.inl rfl))

/-! ## C9 -/

/-- C9: the bearer token is extracted by evaluating the sources in the fixed
priority order cookie, then Authorization Bearer header, then request body,
then query parameter, using the first present (truthy) value. -/
theorem extractToken_priority (r : AuthRequest) :
    (truthyOpt r.cookieToken = true → extractToken r = r.cookieToken) ∧
    (truthyOpt r.cookieToken = false →
      truthyOpt (tokenFromHeader r.authHeader) = true →
      extractToken r = tokenFromHeader r.authHeader) ∧
    (truthyOpt r.cookieToken = false →
      truthyOpt (tokenFromHeader r.authHeader) = false →
      truthyOpt r.bodyToken = true →
      extractToken r = r.bodyToken) ∧
    (truthyOpt r.cookieToken = false →
      truthyOpt (tokenFromHeader r.authHeader) = false →
      truthyOpt r.bodyToken = false →
      extractToken r = r.queryToken) := by
  unfold extractToken jsOr
  refine ⟨fun h1 => by simp [h1],
          fun h1 h2 => by simp [h1, h2],
          fun h1 h2 h3 => by simp [h1, h2, h3],
          fun h1 h2 h3 => by simp [h1, h2, h3]⟩

/-- C9 witness: with all four sources present the cookie wins. -/
theorem extractToken_priority_witness :
    extractToken allSourcesReq = allSourcesReq.cookieToken :=
  (extractToken_priority allSourcesReq).1 (by decide)

/-! ## C3 -/

/-- C3 counterexample: the two login-failure runs are distinguishable to the
caller — unknown email answers 404 "User does not exist", wrong password
answers 400 "Incorrect password" — so which case occurred is leaked. -/
theorem login_failures_distinguishable :
    loginHandler loginEnvC (some "bob@x.com") (some "pw") =
      .notFoundUser "User does not exist" ∧
    loginHandler loginEnvC (some "alice@x.com") (some "wrong") =
      .badRequest "Incorrect password" ∧
    LoginResult.notFoundUser "User does not exist" ≠
      LoginResult.badRequest "Incorrect password" :=
  ⟨by decide, by decide, by decide⟩

/-- C3 amended: with both fields supplied, a failing login answers 404
"User does not exist" when no user has the email and 400 "Incorrect
password" when the stored hash does not match — two distinct caller-visible
failures rather than one generic one. -/
theorem login_failure_cases (env : LoginEnv) (email password : Option String)
    (he : truthyOpt email = true) (hp : truthyOpt password = true) :
    (env.users.find? (fun u => u.email == email.getD "") = none →
       loginHandler env email password = .notFoundUser "User does not exist") ∧
    (∀ u, env.users.find? (fun v => v.email == email.getD "") = some u →
       env.bcryptCompare (password.getD "") u.passwordHash = false →
       loginHandler env email password = .badRequest "Incorrect password") := by
  unfold loginHandler
  constructor
  · intro hf; simp [he, hp, hf]
  · intro u hf hc; simp [he, hp, hf, hc]

/-- C3 amended witness: the two branches of `login_failure_cases` at concrete
inputs. -/
theorem login_failure_cases_witness :
    loginHandler loginEnvC (some "carol@x.com") (some "zzz") =
      .notFoundUser "User does not exist" ∧
    loginHandler loginEnvC (some "alice@x.com") (some "nope") =
      .badRequest "Incorrect password" :=
  ⟨(login_failure_cases loginEnvC (some "carol@x.com") (some "zzz")
      (by decide) (by decide)).1 (by decide),
   (login_failure_cases loginEnvC (some "alice@x.com") (some "nope")
      (by decide) (by decide)).2 aliceUser (by decide) (by decide)⟩

/-! ## C1 -/

/-- C1 counterexample: POST /delete/:id has no auth middleware in its chain;
a tokenless request still deletes the product — a mutation executed for an
unauthenticated request. -/
theorem unauthenticated_delete_mutates :
    extractToken noTokenReq = none ∧
    MStep.authCheck ∉ deleteChain ∧
    postDelete [prodA] noTokenReq 1 = (.redirect "/products", []) :=
  ⟨rfl, by simp [deleteChain], by decide⟩

/-- C1 amended: on POST /upload and POST /edit/:id the auth check runs after
the image-store (multer) step but before the Product-Store-mutating handler,
and a failed auth leaves the product store unchanged on both routes;
POST /delete/:id has no auth step and its effect is independent of the
request's credentials. -/
theorem mutating_routes_auth_placement :
    (uploadChain.indexOf MStep.imageStoreUpload < uploadChain.indexOf MStep.authCheck ∧
     uploadChain.indexOf MStep.authCheck < uploadChain.indexOf MStep.routeHandler) ∧
    (editChain.indexOf MStep.imageStoreUpload < editChain.indexOf MStep.authCheck ∧
     editChain.indexOf MStep.authCheck < editChain.indexOf MStep.routeHandler) ∧
    MStep.authCheck ∉ deleteChain ∧
    (∀ env store file body req newId, (∀ u, protect env req ≠ .next u) →
       (postUpload env store file body req newId).2 = store) ∧
    (∀ env store id file body req, (∀ u, protect env req ≠ .next u) →
       (postEditRoute env store id file body req).2 = store) ∧
    (∀ store req req2 id, postDelete store req id = postDelete store req2 id) := by
  refine ⟨by decide, by decide, by simp [deleteChain], ?_, ?_,
          fun store req req2 id => rfl⟩
  · intro env store file body req newId hfail
    cases hp : protect env req with
    | next u => exact absurd hp (hfail u)
    | redirectLogin =>
      cases file with
      | none => simp [postUpload, hp]
      | some f =>
        by_cases hacc : imageFilterAccepts f = true <;> simp [postUpload, hp, hacc]
    | unauthorized m =>
      cases file with
      | none => simp [postUpload, hp]
      | some f =>
        by_cases hacc : imageFilterAccepts f = true <;> simp [postUpload, hp, hacc]
  · intro env store id file body req hfail
    cases hp : protect env req with
    | next u => exact absurd hp (hfail u)
    | redirectLogin =>
      cases file with
      | none => simp [postEditRoute, hp]
      | some f =>
        by_cases hacc : imageFilterAccepts f = true <;> simp [postEditRoute, hp, hacc]
    | unauthorized m =>
      cases file with
      | none => simp [postEditRoute, hp]
      | some f =>
        by_cases hacc : imageFilterAccepts f = true <;> simp [postEditRoute, hp, hacc]

/-- C1 amended witness: a tokenless upload request and a tokenless edit
request both leave the store unchanged. -/
theorem mutating_routes_auth_placement_witness :
    (postUpload envNone [] none mouseBody noTokenReq 1).2 = ([] : Store) ∧
    (postEditRoute envNone [] 1 none fullEditBody noTokenReq).2 = ([] : Store) := by
  have hp : protect envNone noTokenReq = .unauthorized "Not authorized, token missing" := rfl
  have hfail : ∀ u, protect envNone noTokenReq ≠ ProtectResult.next u :=
    fun u hu => by rw [hp] at hu; cases hu
  exact ⟨mutating_routes_auth_placement.2.2.2.1 envNone [] none mouseBody noTokenReq 1 hfail,
         mutating_routes_auth_placement.2.2.2.2.1 envNone [] 1 none fullEditBody noTokenReq hfail⟩

/-! ## C4 -/

/-- C4 counterexample: a request with a valid image whose title AND
categories are both missing answers 500 (the handler throws on
`categories.split` first), not the 400 ValidationError the claim promises
for a missing title. -/
theorem upload_missing_title_crashes :
    uploadHandler [] (some { path := "u" }) missingTitleCatBody 1 =
      (.serverError categoriesSplitError, []) := rfl

/-- C4 (amended): provided the `categories` field is present (an absent
`categories` instead crashes the handler with a 500), a POST /upload missing
any of title, details, rating or price answers 400 with the required-field
message, a missing image answers 400 "No image uploaded", and in every such
case no product record is persisted (store unchanged). -/
theorem upload_missing_fields_rejected (store : Store) (body : UploadBody) (newId : Nat) :
    uploadHandler store none body newId = (.badRequest "No image uploaded", store) ∧
    (∀ f cats, categoryArray body.categories = some cats →
       (truthyOpt body.title = false ∨ truthyOpt body.details = false ∨
        truthyOpt body.rating = false ∨ truthyOpt body.price = false) →
       uploadHandler store (some f) body newId = (.badRequest requiredFieldsMsg, store)) := by
  refine ⟨rfl, ?_⟩
  intro f cats hcats h
  unfold uploadHandler
  rw [hcats]
  rcases h with h | h | h | h <;> simp [h]

/-- C4 amended witness: missing title with categories present → 400 and an
unchanged store; missing image → 400. -/
theorem upload_missing_fields_rejected_witness :
    uploadHandler [] none mouseBody 1 = (.badRequest "No image uploaded", []) ∧
    uploadHandler [] (some { path := "u" }) missingTitleBody 1 =
      (.badRequest requiredFieldsMsg, []) :=
  ⟨(upload_missing_fields_rejected [] mouseBody 1).1,
   (upload_missing_fields_rejected [] missingTitleBody 1).2 { path := "u" } _ rfl
     (Or.inl rfl)⟩

/-! ## C10 -/

/-- C10: with a valid image present but the `categories` field absent, the
upload handler throws on `categories.split` before the required-field
validation runs, so the caller receives a 500 rather than a 400, and no
product record is persisted. -/
theorem upload_missing_categories_throws (store : Store) (f : StoredFile)
    (body : UploadBody) (newId : Nat) (h : body.categories = .missing) :
    uploadHandler store (some f) body newId = (.serverError categoriesSplitError, store) := by
  unfold uploadHandler
  rw [h]
  rfl

/-- C10 witness: every other field valid, categories absent → 500, store
unchanged. -/
theorem upload_missing_categories_throws_witness :
    uploadHandler [] (some { path := "u" }) noCatBody 1 =
      (.serverError categoriesSplitError, []) :=
  upload_missing_categories_throws [] { path := "u" } noCatBody 1 rfl

/-! ## C6 -/

/-- C6: any upload whose declared MIME type or lower-cased filename extension
fails the jpeg/jpg/png/webp/gif allow-list is rejected by the filter with
the descriptive error, and no product record is created. -/
theorem upload_filter_rejects (env : AuthEnv) (store : Store) (f : RawUpload)
    (body : UploadBody) (req : AuthRequest) (newId : Nat)
    (h : testAllowed f.mimetype = false ∨
         testAllowed (jsLower (extname f.originalname)) = false) :
    postUpload env store (some f) body req newId = (.filterError imageFilterError, store) := by
  have hacc : imageFilterAccepts f = false := by
    unfold imageFilterAccepts
    rcases h with h | h <;> simp [h]
  simp [postUpload, hacc]

/-- C6 witness: `shoe.exe` with MIME `application/octet-stream` is rejected
and the store is unchanged. -/
theorem upload_filter_rejects_witness :
    postUpload envNone []
      (some { originalname := "shoe.exe", mimetype := "application/octet-stream" })
      mouseBody noTokenReq 1 = (.filterError imageFilterError, []) :=
  upload_filter_rejects envNone [] _ mouseBody noTokenReq 1 (Or.inl (by decide))

/-! ## C5 -/

/-- C5 counterexample: the schema the mounted router imports has no
categories path, so strict-mode Mongoose drops the categories input — the
Mouse run is indistinguishable from a run whose categories input is
"Gaming", and the stored record carries no categories at all, contradicting
the claimed response categories and the round-trip equality. -/
theorem upload_categories_dropped :
    uploadHandler [] (some { path := "u" }) mouseBody 1 =
      uploadHandler [] (some { path := "u" }) gamingCatBody 1 ∧
    (uploadHandler [] (some { path := "u" }) mouseBody 1).1 =
      .ok { pid := 1, title := "Mouse", details := "Wireless", image := "u",
            price := Rat.divInt 1999 100, ratingRate := Rat.divInt 4 1,
            ratingCount := 1 } :=
  ⟨by decide, by decide⟩

/-- C5 (amended): the §8 Mouse scenario answers 200 with a record holding
price 19.99, rating.rate 4 and rating.count 1 but no categories — the
mounted schema (`src/models/productModel.js`) has no categories path, so
the persisted record and response are independent of the categories input
(any present string value gives the same outcome); a successful create is
retrievable under its fresh id. -/
theorem upload_roundtrip (store : Store) (f : StoredFile) (body : UploadBody)
    (newId : Nat) (p : Product) (s2 : Store)
    (hfresh : findById store newId = none)
    (hrun : uploadHandler store (some f) body newId = (.ok p, s2)) :
    (p.pid = newId ∧ findById s2 p.pid = some p) ∧
    (∀ cs cs2,
       uploadHandler store (some f) { body with categories := .str cs } newId =
       uploadHandler store (some f) { body with categories := .str cs2 } newId) ∧
    (uploadHandler [] (some { path := cloudinaryPath pngFile }) mouseBody 1 =
       (.ok mouseProduct, [mouseProduct]) ∧
     mouseProduct.price = (1999 : ℚ) / 100 ∧
     mouseProduct.ratingRate = 4 ∧ mouseProduct.ratingCount = 1) := by
  refine ⟨?_, fun cs cs2 => rfl, by decide, ?_, ?_, rfl⟩
  · unfold uploadHandler at hrun
    cases hbc : body.categories with
    | missing =>
      rw [hbc] at hrun
      simp only [categoryArray] at hrun
      simp at hrun
    | str cs0 =>
      rw [hbc] at hrun
      simp only [categoryArray] at hrun
      split at hrun
      · simp at hrun
      · split at hrun
        · split at hrun
          · rw [Prod.mk.injEq] at hrun
            obtain ⟨h1, h2⟩ := hrun
            injection h1 with h1
            subst h1
            subst h2
            exact ⟨rfl, findById_append_fresh store _ hfresh⟩
          · simp at hrun
        · simp at hrun
    | arr l =>
      rw [hbc] at hrun
      simp only [categoryArray] at hrun
      split at hrun
      · simp at hrun
      · split at hrun
        · split at hrun
          · rw [Prod.mk.injEq] at hrun
            obtain ⟨h1, h2⟩ := hrun
            injection h1 with h1
            subst h1
            subst h2
            exact ⟨rfl, findById_append_fresh store _ hfresh⟩
          · simp at hrun
        · simp at hrun
  · show Rat.divInt 1999 100 = (1999 : ℚ) / 100
    rw [Rat.divInt_eq_div]; norm_num
  · show Rat.divInt 4 1 = (4 : ℚ)
    rw [Rat.divInt_eq_div]; norm_num

/-- C5 amended witness: the Mouse scenario run instantiates the round-trip. -/
theorem upload_roundtrip_witness :
    mouseProduct.pid = 1 ∧
    findById [mouseProduct] mouseProduct.pid = some mouseProduct :=
  (upload_roundtrip [] { path := cloudinaryPath pngFile } mouseBody 1
    mouseProduct [mouseProduct] rfl (by decide)).1

/-! ## C7 -/

/-- C7 counterexample: an edit of an existing product carrying only
price=9.99 answers 500 (Number cast of the NaN rating fails) and leaves the
record unchanged — in particular the price is not updated to 9.99. -/
theorem edit_price_only_counterexample :
    postEdit [prodA] 1 priceOnlyBody none =
      (.serverError "Cast to Number failed", [prodA]) ∧
    jsParseFloatOpt priceOnlyBody.price = some (Rat.divInt 999 100) ∧
    prodA.price ≠ Rat.divInt 999 100 :=
  ⟨by decide, by decide, by decide⟩

/-- C7 (amended): an edit supplying only a new price fails with the Number
cast error (500) and changes nothing, because the handler unconditionally
parses the absent rating to NaN; when price and rating both parse, the
update rewrites exactly title, details, price and rating.rate of the matched
record, and image is replaced exactly when a new file upload is supplied
(rating.count, and image absent a new upload, are untouched). -/
theorem edit_partial_update (store : Store) (id : Nat) (body : EditBody) :
    (body.rating = none →
       postEdit store id body none = (.serverError "Cast to Number failed", store)) ∧
    (∀ pr rt, jsParseFloatOpt body.price = some pr →
       jsParseFloatOpt body.rating = some rt →
       (postEdit store id body none).2 =
         store.map (fun q => if q.pid == id then
           { q with title := (body.title.map jsTrim).getD q.title,
                    details := body.details.getD q.details,
                    price := pr, ratingRate := rt } else q)) ∧
    (∀ pr rt fp, jsParseFloatOpt body.price = some pr →
       jsParseFloatOpt body.rating = some rt →
       (postEdit store id body (some { path := fp })).2 =
         store.map (fun q => if q.pid == id then
           { q with title := (body.title.map jsTrim).getD q.title,
                    details := body.details.getD q.details,
                    price := pr, ratingRate := rt, image := fp } else q)) := by
  refine ⟨?_, ?_, ?_⟩
  · intro h
    cases hpr : jsParseFloatOpt body.price <;>
      simp [postEdit, h, hpr, jsParseFloatOpt]
  · intro pr rt hpr hrt
    simp only [postEdit, hpr, hrt]
    apply List.map_congr_left
    intro q _
    by_cases hq : (q.pid == id) = true <;> simp [hq, applyUpdate]
  · intro pr rt fp hpr hrt
    simp only [postEdit, hpr, hrt]
    apply List.map_congr_left
    intro q _
    by_cases hq : (q.pid == id) = true <;> simp [hq, applyUpdate]

/-- C7 amended witness: the failing price-only edit and a full-field edit of
a concrete store. -/
theorem edit_partial_update_witness :
    postEdit [prodA] 2 priceOnlyBody none =
      (.serverError "Cast to Number failed", [prodA]) ∧
    (postEdit [prodA] 1 fullEditBody none).2 =
      [prodA].map (fun q => if q.pid == 1 then
        { q with title := (fullEditBody.title.map jsTrim).getD q.title,
                 details := fullEditBody.details.getD q.details,
                 price := Rat.divInt 5 1, ratingRate := Rat.divInt 2 1 } else q) :=
  ⟨(edit_partial_update [prodA] 2 priceOnlyBody).1 rfl,
   (edit_partial_update [prodA] 1 fullEditBody).2.1
     (Rat.divInt 5 1) (Rat.divInt 2 1) (by decide) (by decide)⟩

/-! ## C8 -/

/-- C8 counterexample: editing a nonexistent id yields the same success-style
redirect as editing an existing one — no NotFound failure is reported. -/
theorem edit_missing_id_counterexample :
    (postEdit [] 99 fullEditBody none).1 = .redirect "/products/99" ∧
    (postEdit [] 99 fullEditBody none).2 = [] ∧
    (postEdit [] 99 fullEditBody none).1 = (postEdit [prodC99] 99 fullEditBody none).1 :=
  ⟨by decide, rfl, by decide⟩

/-- C8 (amended): for an id with no record and a body whose price and rating
parse, POST /edit/:id does not fail with NotFound: `findByIdAndUpdate`
matches nothing, the store is unchanged, and the handler still redirects to
the product page as on success. -/
theorem edit_missing_id_redirects (store : Store) (id : Nat) (body : EditBody)
    (file : Option StoredFile) (pr rt : Rat)
    (hpr : jsParseFloatOpt body.price = some pr)
    (hrt : jsParseFloatOpt body.rating = some rt)
    (hmiss : findById store id = none) :
    postEdit store id body file = (.redirect ("/products/" ++ toString id), store) := by
  unfold findById at hmiss
  have h : ∀ q ∈ store, (q.pid == id) = false := by
    intro q hq
    have := List.find?_eq_none.mp hmiss q hq
    simpa using this
  have hmap := map_update_of_no_match store id
    (fun q => applyUpdate q body.title body.details pr rt (file.map StoredFile.path)) h
  simp only at hmap
  unfold postEdit
  rw [hpr, hrt]
  simp only [hmap]

/-- C8 amended witness: the redirect on an empty store. -/
theorem edit_missing_id_redirects_witness :
    postEdit [] 7 fullEditBody none = (.redirect "/products/7", []) :=
  edit_missing_id_redirects [] 7 fullEditBody none
    (Rat.divInt 5 1) (Rat.divInt 2 1) (by decide) (by decide) rfl
